import Mathlib

/-!
Verification development for the deepgram-subtitles repository.

The definitions below are shallow embeddings of the repository code:
* `cli_skip` — the per-file skip decision of `SubtitleGenerator.process_video`
  (src/deepgram-subtitles/generate_subtitles.py, lines 190-207);
* `web_skip`, `transcribe_task` — the per-file control flow of the Celery task
  `transcribe_task` (src/web/tasks.py, lines 60-240);
* `make_batch`, `finalize_run_count` — the dispatch built by `make_batch`
  (src/web/tasks.py, lines 392-452) under the task queue semantics
  (a chord runs its callback once after all jobs finish; a plain group has
  no callback);
* `unexpected_keyword`, `api_submit_enqueued` — Python call binding of the
  `make_batch` call inside `api_submit` (src/web/app.py, lines 309-328);
* `generate_srt`, `process_video`, `run_batch` — the CLI single-file pipeline
  and batch loop (src/deepgram-subtitles/generate_subtitles.py);
* `write_transcript` — the transcript writer of src/core/transcribe.py
  (lines 468-536);
* `save_keyterms_to_csv`, `load_keyterms_from_csv` — the keyterm CSV layer of
  src/core/transcribe.py (lines 330-438), with a CSV file modelled as the
  list of rows the Python csv module writes and parses;
* `with_suffix`, `write_srt_dest`, `cli_subtitle_name`, `web_subtitle_name` —
  the subtitle file naming of both entry points, with pathlib
  `Path.with_suffix` modelled on file names as character lists.

External capabilities (the transcription API, the SRT converter of the
deepgram_captions library, ffmpeg) are parameters or boolean outcomes,
never reimplemented.
-/

namespace DeepgramSubtitles

/-! ## Skip decisions (C1) -/

/-- CLI per-file skip decision, from `SubtitleGenerator.process_video`
(generate_subtitles.py lines 190-207): with force regenerate off, transcript
mode skips only when both the SRT and the transcript exist; otherwise the SRT
alone decides.  Force regenerate never skips. -/
def cli_skip (force_regenerate enable_transcript srt_exists transcript_exists : Bool) :
    Bool :=
  if force_regenerate then false
  else if enable_transcript then srt_exists && transcript_exists
  else srt_exists

/-- Web per-file skip decision, from `transcribe_task` (tasks.py line 135):
only the SRT file is consulted, the transcript file is not an input at all. -/
def web_skip (force_regenerate srt_exists : Bool) : Bool :=
  srt_exists && !force_regenerate

/-! ## The web task (C1, C3, C5, C10) -/

/-- Status values written by `_save_job_log` and returned by `transcribe_task`. -/
inductive JobStatus where
  | ok
  | error
  | skipped
deriving DecidableEq, Repr

/-- Inputs determining one run of `transcribe_task` (tasks.py lines 60-240):
the on-disk state at the skip check, the flags, and the outcome of each
external step (the ffmpeg command inside `extract_audio`, the transcription
API call, the subtitle write, the transcript write). -/
structure WebInput where
  srt_exists : Bool
  force_regenerate : Bool
  enable_transcript : Bool
  extract_cmd_ok : Bool
  transcribe_ok : Bool
  write_srt_ok : Bool
  transcript_write_ok : Bool
deriving DecidableEq, Repr

/-- Observable outcome of one run of `transcribe_task`: the returned or raised
status, the statuses passed to `_save_job_log` in order, whether the mkstemp
temp audio file is still on disk afterwards, and whether the SRT was
(re)written. -/
structure WebResult where
  status : JobStatus
  job_logs : List JobStatus
  temp_leaked : Bool
  srt_written : Bool
deriving DecidableEq, Repr

/-- The control flow of `transcribe_task` (tasks.py lines 103-240).
The skip check returns before any log is written (line 136).  `extract_audio`
(core/transcribe.py lines 89-110) first creates the temp file with
`tempfile.mkstemp` and then runs ffmpeg; if the command fails the exception
propagates before `audio_tmp` is assigned, so the `finally` block (lines
234-240) sees `audio_tmp = None` and deletes nothing: the mkstemp file stays
on disk.  Every failure after the assignment reaches the same `finally` block
with the path in hand, and the error handler (lines 229-232) logs a record
with status error before re-raising.  Success logs one record with status ok
(line 225). -/
def transcribe_task (i : WebInput) : WebResult :=
  if web_skip i.force_regenerate i.srt_exists then
    { status := .skipped, job_logs := [], temp_leaked := false, srt_written := false }
  else if !i.extract_cmd_ok then
    { status := .error, job_logs := [.error], temp_leaked := true, srt_written := false }
  else if !i.transcribe_ok then
    { status := .error, job_logs := [.error], temp_leaked := false, srt_written := false }
  else if !i.write_srt_ok then
    { status := .error, job_logs := [.error], temp_leaked := false, srt_written := false }
  else if i.enable_transcript && !i.transcript_write_ok then
    { status := .error, job_logs := [.error], temp_leaked := false, srt_written := true }
  else
    { status := .ok, job_logs := [.ok], temp_leaked := false, srt_written := true }

/-! ## Batch dispatch (C2) -/

/-- Callback a task-queue dispatch may carry. -/
inductive CeleryCallback where
  | batchFinalizeCb
deriving DecidableEq, Repr

/-- A dispatched batch: the per-file jobs plus the callback attached to run
after all of them finish (a chord has one, a plain group has none). -/
structure Dispatch (α : Type) where
  jobs : List α
  callback : Option CeleryCallback
deriving DecidableEq, Repr

/-- Dispatch built by `make_batch` (tasks.py lines 424-452): one signature per
file, submitted with `group(jobs).apply_async()` — a plain group, no chord, so
no callback is attached. -/
def make_batch (files : List α) : Dispatch α :=
  { jobs := files, callback := none }

/-- Task-queue semantics: once every job of a dispatch reaches a terminal
state, the attached callback (if any) runs exactly once.  This counts the runs
of `batch_finalize` for a completed dispatch. -/
def finalize_run_count (d : Dispatch α) : Nat :=
  match d.callback with
  | some .batchFinalizeCb => 1
  | none => 0

/-! ## The submit endpoint call binding (C4) -/

/-- Parameters declared by the signature of `make_batch`
(tasks.py lines 392-396), in order; there is no var-keyword parameter. -/
def make_batch_params : List String :=
  ["files", "model", "language", "profanity_filter", "force_regenerate",
   "enable_transcript", "keyterms", "save_raw_json", "auto_save_keyterms",
   "numerals", "filler_words", "detect_language", "measurements",
   "diarization", "utterances", "paragraphs"]

/-- Keyword arguments of the `make_batch` call inside `api_submit`
(app.py lines 310-328); `files`, `model` and `language` are passed
positionally and are not in this list. -/
def api_submit_kwargs : List String :=
  ["profanity_filter", "force_regenerate", "enable_transcript", "speaker_map",
   "keyterms", "save_raw_json", "auto_save_keyterms", "numerals",
   "filler_words", "detect_language", "measurements", "diarization",
   "utterances", "paragraphs"]

/-- Python call binding: a keyword argument that is not a declared parameter
makes the call raise TypeError before the callee body runs.  Returns the first
such keyword, if any. -/
def unexpected_keyword (params kwargs : List String) : Option String :=
  kwargs.find? (fun k => !params.contains k)

/-- Outcome of the `make_batch` call in `api_submit`: on a binding failure the
TypeError is raised before the body of `make_batch` (which enqueues the jobs)
ever executes, so nothing is enqueued; otherwise every validated file is
enqueued. -/
def api_submit_enqueued (files : List String) : Except String Nat :=
  match unexpected_keyword make_batch_params api_submit_kwargs with
  | some k => .error ("TypeError: make_batch() got an unexpected keyword argument " ++ k)
  | none => .ok files.length

/-! ## Deepgram response model -/

/-- One recognized word of a transcription response: its text and its optional
speaker identifier (absent when diarization left the word unlabeled). -/
structure DGWord where
  word : String
  speaker : Option Nat
deriving DecidableEq, Repr

/-- One alternative of a response channel: the raw transcript text and the
word list. -/
structure DGAlternative where
  transcript : String
  words : List DGWord
deriving DecidableEq, Repr

/-- One channel of a response. -/
structure DGChannel where
  alternatives : List DGAlternative
deriving DecidableEq, Repr

/-- A structurally typed transcription response: `results.channels`. -/
structure DGResponse where
  channels : List DGChannel
deriving DecidableEq, Repr

/-! ## CLI single-file pipeline and batch loop (C5, C8) -/

/-- The validation chain of `SubtitleGenerator.generate_srt`
(generate_subtitles.py lines 136-184): missing channels, alternatives or
words each raise a ValueError that is rewrapped as
`SRT generation failed: ...`; otherwise the external deepgram_captions
converter (`conv`, a parameter here) produces the SRT text. -/
def generate_srt (conv : DGResponse → String) (r : DGResponse) : Except String String :=
  match r.channels with
  | [] => .error "No channels in Deepgram response"
  | ch :: _ =>
    match ch.alternatives with
    | [] => .error "No alternatives in channel"
    | alt :: _ =>
      if alt.words.isEmpty then
        .error "No words detected in audio - possibly silent video or no speech"
      else .ok (conv r)

/-- Batch counters of `SubtitleGenerator.stats` that the claims mention. -/
structure CliStats where
  processed : Nat
  skipped : Nat
  failed : Nat
  failed_files : List String
deriving DecidableEq, Repr

/-- The CLI flags read from the environment. -/
structure CliConfig where
  force_regenerate : Bool
  enable_transcript : Bool
deriving DecidableEq, Repr

/-- State of one video at processing time: its name, which artifacts already
exist on disk, and the outcome of each external step (ffmpeg extraction, the
transcription API — `none` models an API error —, and the internally caught
transcript sub-generation). -/
structure CliFileState where
  name : String
  srt_exists : Bool
  transcript_exists : Bool
  extract_ok : Bool
  response : Option DGResponse
  transcript_gen_ok : Bool
deriving Repr

/-- Outcome of `process_video`: its return value, whether an SRT file was
written, and the updated counters. -/
structure CliOutcome where
  returned : Bool
  srt_written : Bool
  stats : CliStats
deriving Repr

/-- The try block of `process_video` (generate_subtitles.py lines 211-254):
extraction failure raises; then `srt_already_existed` is sampled (line 221)
and transcription plus SRT writing run only when the SRT was absent (lines
224-238), incrementing `processed`; with the transcript feature on, a
transcript generated for an already existing SRT counts as processed too
(lines 243-249).  The returned Bool is whether an SRT file was written. -/
def process_video_try (conv : DGResponse → String) (cfg : CliConfig)
    (v : CliFileState) (s : CliStats) : Except String (Bool × CliStats) :=
  if !v.extract_ok then .error "Audio extraction failed"
  else
    let srt_already_existed := v.srt_exists
    let step : Except String (Bool × CliStats) :=
      if !srt_already_existed then
        match v.response with
        | none => .error "Transcription failed"
        | some resp =>
          match generate_srt conv resp with
          | .error e => .error ("SRT generation failed: " ++ e)
          | .ok _ => .ok (true, { s with processed := s.processed + 1 })
      else .ok (false, s)
    match step with
    | .error e => .error e
    | .ok (written, s1) =>
      let s2 :=
        if cfg.enable_transcript && v.transcript_gen_ok && srt_already_existed then
          { s1 with processed := s1.processed + 1 }
        else s1
      .ok (written, s2)

/-- `SubtitleGenerator.process_video` (generate_subtitles.py lines 186-264):
the skip check first (lines 190-207), then the try block; any raised error is
caught, the file is counted failed and appended to the failed list, and False
is returned (lines 256-264) — the exception never escapes. -/
def process_video (conv : DGResponse → String) (cfg : CliConfig)
    (v : CliFileState) (s : CliStats) : CliOutcome :=
  if cli_skip cfg.force_regenerate cfg.enable_transcript v.srt_exists v.transcript_exists then
    { returned := false, srt_written := false,
      stats := { s with skipped := s.skipped + 1 } }
  else
    match process_video_try conv cfg v s with
    | .ok (written, s1) => { returned := true, srt_written := written, stats := s1 }
    | .error _ =>
      { returned := false, srt_written := false,
        stats := { s with failed := s.failed + 1,
                          failed_files := s.failed_files ++ [v.name] } }

/-- The batch loop of `SubtitleGenerator.run` (generate_subtitles.py lines
464-468): every video of the list is handed to `process_video` in order,
whatever the previous outcomes were. -/
def run_batch (conv : DGResponse → String) (cfg : CliConfig)
    (videos : List CliFileState) (s : CliStats) : CliStats :=
  videos.foldl (fun acc v => (process_video conv cfg v acc).stats) s

/-- Total number of per-file attempts the counters account for. -/
def stats_total (s : CliStats) : Nat :=
  s.processed + s.skipped + s.failed

/-! ## The core transcript writer (C7) -/

/-- Speaker label of a turn, from `speaker_map.get(current_speaker,
f"Speaker {current_speaker}")` (core/transcribe.py lines 510 and 521): a
mapped id gets its name; an unmapped id gets `Speaker <id>`; an unlabeled
speaker is Python `None`, which the map (keyed by ints) never contains, so the
label renders as `Speaker None`. -/
def speaker_label (m : List (Nat × String)) : Option Nat → String
  | some i =>
    match m.lookup i with
    | some nm => nm
    | none => "Speaker " ++ toString i
  | none => "Speaker None"

/-- One transcript line: `f"{speaker_name}: {' '.join(current_text)}"`. -/
def format_turn (m : List (Nat × String)) (spk : Option Nat) (txt : List String) :
    String :=
  speaker_label m spk ++ ": " ++ String.intercalate " " txt

/-- The word loop of `write_transcript` (core/transcribe.py lines 500-522):
`cur` and `txt` are `current_speaker` and `current_text`, `acc` the emitted
lines.  On a speaker change the pending text is flushed only when
`current_speaker is not None` (line 509); the final flush (lines 520-522) has
no such guard. -/
def wt_loop (m : List (Nat × String)) :
    List DGWord → Option Nat → List String → List String → List String
  | [], cur, txt, acc =>
    if txt.isEmpty then acc else acc ++ [format_turn m cur txt]
  | w :: ws, cur, txt, acc =>
    if w.speaker = cur then
      wt_loop m ws cur (txt ++ [w.word]) acc
    else
      wt_loop m ws w.speaker [w.word]
        (if cur.isSome && !txt.isEmpty then acc ++ [format_turn m cur txt] else acc)

/-- Text written by `write_transcript` (core/transcribe.py lines 468-536) for
the first alternative of the response: when the word list is nonempty the
lines of the word loop joined by a double newline, otherwise the raw
transcript text as the single fallback line. -/
def write_transcript (m : List (Nat × String)) (alt : DGAlternative) : String :=
  if alt.words.isEmpty then alt.transcript
  else String.intercalate "\n\n" (wt_loop m alt.words none [] [])

/-- Speaker turns exactly as the spec words them: consecutive words grouped,
with a new turn whenever the speaker identifier changes. -/
def spec_turns : List DGWord → List (Option Nat × List String)
  | [] => []
  | w :: ws =>
    match spec_turns ws with
    | [] => [(w.speaker, [w.word])]
    | (s, txt) :: rest =>
      if w.speaker = s then (s, w.word :: txt) :: rest
      else (w.speaker, [w.word]) :: (s, txt) :: rest

/-- Prepend a pending run (speaker `s`, accumulated words `txt`) onto a turn
list: merged into the first turn when the speakers agree, a fresh first turn
otherwise. -/
def merge_run (s : Option Nat) (txt : List String) :
    List (Option Nat × List String) → List (Option Nat × List String)
  | [] => [(s, txt)]
  | (s', t') :: rest =>
    if s = s' then (s, txt ++ t') :: rest else (s, txt) :: (s', t') :: rest

/-! ## Keyterm CSV layer (C9) -/

/-- Characters removed by Python `str.strip()` (its ASCII whitespace set). -/
def pyIsSpace (c : Char) : Bool :=
  c = ' ' || c = '\t' || c = '\n' || c = '\r' || c = '\x0b' || c = '\x0c'

/-- Python `str.strip()` on the character list of a string. -/
def pyStripList (l : List Char) : List Char :=
  ((l.dropWhile pyIsSpace).reverse.dropWhile pyIsSpace).reverse

/-- Python `str.strip()`. -/
def pyStrip (s : String) : String :=
  String.mk (pyStripList s.toList)

/-- Python `str.startswith`. -/
def pyStartsWith (s t : String) : Bool :=
  t.toList.isPrefixOf s.toList

/-- One row of a CSV file, as the Python csv module writes and parses it:
the list of its fields. -/
abbrev CsvRow := List String

/-- Row written for one keyterm by the loop of `save_keyterms_to_csv`
(core/transcribe.py lines 430-432): `writer.writerow([keyterm.strip()])`,
guarded by `if keyterm.strip()`. -/
def save_row (k : String) : Option CsvRow :=
  if pyStrip k = "" then none else some [pyStrip k]

/-- Rows written by `save_keyterms_to_csv` (core/transcribe.py lines
428-432): one single-field row per keyterm that is nonempty after stripping,
holding the stripped keyterm, in order. -/
def save_keyterms_to_csv (keyterms : List String) : List CsvRow :=
  keyterms.filterMap save_row

/-- Keyterm read from one row by the loop of `load_keyterms_from_csv`
(core/transcribe.py lines 384-386): `if row and row[0].strip() and not
row[0].strip().startswith('#'): keyterms.append(row[0].strip())`. -/
def load_row : CsvRow → Option String
  | [] => none
  | f :: _ =>
    if pyStrip f ≠ "" ∧ ¬ pyStartsWith (pyStrip f) "#" then some (pyStrip f)
    else none

/-- Keyterms read back by `load_keyterms_from_csv` (core/transcribe.py lines
380-388): the surviving stripped first fields in order, `None` when nothing
survives (line 388: `return keyterms if keyterms else None`). -/
def load_keyterms_from_csv (rows : List CsvRow) : Option (List String) :=
  let ks := rows.filterMap load_row
  if ks.isEmpty then none else some ks

/-! ## Subtitle file naming (C6) -/

/-- Split a file name at its last dot: `some (stem, ext)` when a dot exists,
with `ext` the part after the last dot. -/
def splitLastDot : List Char → Option (List Char × List Char)
  | [] => none
  | c :: cs =>
    match splitLastDot cs with
    | some (pre, suf) => some (c :: pre, suf)
    | none => if c = '.' then some ([], cs) else none

/-- pathlib `PurePath.with_suffix` on a file name: replace the part from the
last dot on by `suffix`; a name without a dot, or whose only dot leads (a
dotfile, suffix-less in pathlib), just gets `suffix` appended. -/
def with_suffix (name suffix : List Char) : List Char :=
  match splitLastDot name with
  | some (pre, _) => if pre = [] then name ++ suffix else pre ++ suffix
  | none => name ++ suffix

/-- pathlib `PurePath.stem` on a file name. -/
def pyStem (name : List Char) : List Char :=
  match splitLastDot name with
  | some (pre, _) => if pre = [] then name else pre
  | none => name

/-- Python `str.endswith` on character lists. -/
def endswith (s suffix : List Char) : Bool :=
  decide (suffix <:+ s)

/-- Destination name used by `write_srt` (core/transcribe.py lines 191-196):
a name already ending in `.eng.srt` is kept, any other is renamed to
`<stem>.eng.srt`. -/
def write_srt_dest (name : List Char) : List Char :=
  if endswith name ".eng.srt".toList then name
  else pyStem name ++ ".eng.srt".toList

/-- Subtitle file name produced by the web task for a video name:
`vp.with_suffix(".eng.srt")` (tasks.py line 104) passed through `write_srt`
(tasks.py line 172). -/
def web_subtitle_name (name : List Char) : List Char :=
  write_srt_dest (with_suffix name ".eng.srt".toList)

/-- Subtitle file name written by the CLI runner:
`video_path.with_suffix('.srt')` (generate_subtitles.py line 187), written
directly with `open()` (lines 233-234), never passing through `write_srt`. -/
def cli_subtitle_name (name : List Char) : List Char :=
  with_suffix name ".srt".toList

/-! ## Concrete instances used by witnesses -/

/-- A structurally valid transcription response carrying zero recognized
words. -/
def no_speech_response : DGResponse :=
  { channels := [{ alternatives := [{ transcript := "", words := [] }] }] }

/-- A video whose transcription comes back with zero words. -/
def no_speech_video : CliFileState :=
  { name := "bad.mkv", srt_exists := false, transcript_exists := false,
    extract_ok := true, response := some no_speech_response,
    transcript_gen_ok := false }

/-- Fresh batch counters. -/
def zero_stats : CliStats :=
  { processed := 0, skipped := 0, failed := 0, failed_files := [] }

/-- A web task input whose extraction command succeeds and whose
transcription call fails. -/
def transcription_fails_input : WebInput :=
  { srt_exists := false, force_regenerate := false, enable_transcript := false,
    extract_cmd_ok := true, transcribe_ok := false, write_srt_ok := true,
    transcript_write_ok := true }

/-- A diarized alternative whose words all carry speaker labels. -/
def labeled_alt : DGAlternative :=
  { transcript := "hello there hi",
    words := [{ word := "hello", speaker := some 0 },
              { word := "there", speaker := some 0 },
              { word := "hi", speaker := some 1 }] }

/-! ## C1 — per-file skip decisions of the two entry points -/

/-- C1, counterexample.  A file whose subtitle exists but whose transcript
does not, with force regenerate off and the transcript feature on: the web
task runner skips it (its decision never consults the transcript file), while
the CLI runner processes it.  This refutes the claim that both entry points
skip exactly when both artifacts exist. -/
theorem c1_web_skips_subtitle_only_file :
    web_skip false true = true ∧ cli_skip false true true false = false := by
  decide

/-- C1, amended.  With force regenerate off and the transcript feature on,
the CLI batch runner skips a file exactly when both the subtitle and the
transcript exist, while the web task runner skips exactly when the subtitle
exists, whatever the transcript state. -/
theorem c1_skip_decisions :
    ∀ srt txt : Bool,
      cli_skip false true srt txt = (srt && txt) ∧ web_skip false srt = srt := by
  decide

/-! ## C2 — the finalization step of a submitted batch -/

/-- C2, counterexample.  For a completed one-file batch built by `make_batch`,
`batch_finalize` runs zero times, not exactly once: `make_batch` submits a
plain group and attaches no callback. -/
theorem c2_finalize_never_runs_once :
    finalize_run_count (make_batch ["film.mkv"]) = 0 ∧
    finalize_run_count (make_batch ["film.mkv"]) ≠ 1 := by
  decide

/-- C2, amended.  For every submitted batch, after all dispatched units reach
a terminal state the finalization step `batch_finalize` runs zero times: the
dispatch built by `make_batch` carries no callback, so no automatic rescan
notification ever fires. -/
theorem c2_no_finalize_callback :
    ∀ files : List String, finalize_run_count (make_batch files) = 0 := by
  intro files
  rfl

/-! ## C3 — temp audio cleanup of the single-file pipeline -/

/-- C3, counterexample.  A unit whose extraction command itself fails leaves
its mkstemp temp audio file on disk: the exception escapes `extract_audio`
before the task assigns `audio_tmp`, so the cleanup block has no path to
delete. -/
theorem c3_extract_failure_leaks_temp :
    (transcribe_task
      { srt_exists := false, force_regenerate := false,
        enable_transcript := false, extract_cmd_ok := false,
        transcribe_ok := true, write_srt_ok := true,
        transcript_write_ok := true }).temp_leaked = true := by
  decide

/-- C3, amended.  For every run of the web task whose extraction command
succeeds, the temp audio file is deleted on every exit path — success or any
later step raising; only a failure of the extraction command itself leaks
the mkstemp file. -/
theorem c3_temp_cleanup_after_extraction (i : WebInput)
    (h : i.extract_cmd_ok = true) :
    (transcribe_task i).temp_leaked = false := by
  obtain ⟨a, b, c, d, e, f, g⟩ := i
  revert h
  revert a b c d e f g
  decide

/-- C3, witness: the amended cleanup theorem at a run whose transcription
call raises. -/
theorem c3_temp_cleanup_witness :
    transcription_fails_input.extract_cmd_ok = true ∧
    (transcribe_task transcription_fails_input).temp_leaked = false :=
  ⟨rfl, c3_temp_cleanup_after_extraction transcription_fails_input rfl⟩

/-! ## C4 — the submit endpoint's call to make_batch -/

/-- C4, confirmed.  The call `api_submit` makes to `make_batch` passes the
keyword `speaker_map`, which the signature of `make_batch` does not declare,
so for every request the call raises TypeError before any job is enqueued. -/
theorem c4_submit_call_raises_type_error :
    unexpected_keyword make_batch_params api_submit_kwargs = some "speaker_map" ∧
    ∀ files : List String,
      api_submit_enqueued files =
        Except.error
          "TypeError: make_batch() got an unexpected keyword argument speaker_map" := by
  refine ⟨by decide, fun files => ?_⟩
  rfl

/-! ## C5 — force regenerate on a file with an existing subtitle -/

/-- C5, code bug.  With force regenerate set and the subtitle already on
disk, the CLI runner's `process_video` returns success without writing any
subtitle — the `srt_already_existed` guard (generate_subtitles.py line 224)
skips transcription and the write even in force mode, contradicting the
runner's own force-regeneration logging and the repository's
`test_force_regenerate` expectation.  The web task, by contrast, does rewrite
the subtitle. -/
theorem c5_cli_force_never_rewrites :
    ∀ (conv : DGResponse → String) (s : CliStats) (r : DGResponse),
      (process_video conv { force_regenerate := true, enable_transcript := false }
        { name := "ep.mkv", srt_exists := true, transcript_exists := false,
          extract_ok := true, response := some r,
          transcript_gen_ok := false } s).srt_written = false ∧
      (process_video conv { force_regenerate := true, enable_transcript := false }
        { name := "ep.mkv", srt_exists := true, transcript_exists := false,
          extract_ok := true, response := some r,
          transcript_gen_ok := false } s).returned = true ∧
      (transcribe_task
        { srt_exists := true, force_regenerate := true,
          enable_transcript := false, extract_cmd_ok := true,
          transcribe_ok := true, write_srt_ok := true,
          transcript_write_ok := true }).srt_written = true := by
  intro conv s r
  exact ⟨rfl, rfl, rfl⟩

/-! ## C10 — per-job durable log records -/

/-- C10, counterexample.  An attempt that ends in a skip writes zero job log
records, not exactly one: the skip return (tasks.py line 136) happens before
any call to `_save_job_log`. -/
theorem c10_skip_writes_no_log :
    (transcribe_task
      { srt_exists := true, force_regenerate := false,
        enable_transcript := false, extract_cmd_ok := true,
        transcribe_ok := true, write_srt_ok := true,
        transcript_write_ok := true }).status = JobStatus.skipped ∧
    (transcribe_task
      { srt_exists := true, force_regenerate := false,
        enable_transcript := false, extract_cmd_ok := true,
        transcribe_ok := true, write_srt_ok := true,
        transcript_write_ok := true }).job_logs = [] := by
  decide

/-- C10, amended.  Every job attempt that does not end in a skip writes
exactly one durable log record, carrying that attempt's status (ok or error);
an attempt that ends in a skip writes none. -/
theorem c10_one_log_per_non_skip_attempt :
    ∀ i : WebInput,
      (transcribe_task i).job_logs =
        (if (transcribe_task i).status = JobStatus.skipped then []
         else [(transcribe_task i).status]) := by
  intro i
  obtain ⟨a, b, c, d, e, f, g⟩ := i
  revert a b c d e f g
  decide

/-! ## C6 — subtitle file naming, with its path lemmas -/

theorem splitLastDot_eq_none {l : List Char} (h : '.' ∉ l) :
    splitLastDot l = none := by
  induction l with
  | nil => rfl
  | cons c cs ih =>
    have hc : ¬ c = '.' := fun e => h (by simp [e])
    have hcs : '.' ∉ cs := fun hm => h (List.mem_cons_of_mem _ hm)
    simp [splitLastDot, ih hcs, hc]

theorem splitLastDot_append {ext : List Char} (stem : List Char)
    (h : '.' ∉ ext) : splitLastDot (stem ++ '.' :: ext) = some (stem, ext) := by
  induction stem with
  | nil => simp [splitLastDot, splitLastDot_eq_none h]
  | cons c cs ih => simp [splitLastDot, ih]

theorem with_suffix_of_append {stem ext : List Char} (suf : List Char)
    (hs : stem ≠ []) (h : '.' ∉ ext) :
    with_suffix (stem ++ '.' :: ext) suf = stem ++ suf := by
  simp [with_suffix, splitLastDot_append stem h, hs]

theorem endswith_append (s suf : List Char) : endswith (s ++ suf) suf = true := by
  simp [endswith]

/-- C6, counterexample.  For the video name `ep.mkv` the CLI batch runner
writes `ep.srt`, not the language-tagged `ep.eng.srt` the claim says both
entry points produce; the web task runner does write `ep.eng.srt`. -/
theorem c6_cli_name_not_language_tagged :
    cli_subtitle_name "ep.mkv".toList = "ep.srt".toList ∧
    cli_subtitle_name "ep.mkv".toList ≠ "ep.eng.srt".toList ∧
    web_subtitle_name "ep.mkv".toList = "ep.eng.srt".toList := by
  decide

/-- C6, amended.  For every media file name with a nonempty stem and a
dot-free extension, the web task runner writes the subtitle as a sibling file
`<stem>.eng.srt` (and `write_srt` keeps that name), while the CLI batch
runner writes the sibling `<stem>.srt` with no language tag. -/
theorem c6_subtitle_names (stem ext : List Char) (hs : stem ≠ [])
    (h : '.' ∉ ext) :
    web_subtitle_name (stem ++ '.' :: ext) = stem ++ ".eng.srt".toList ∧
    cli_subtitle_name (stem ++ '.' :: ext) = stem ++ ".srt".toList := by
  constructor
  · unfold web_subtitle_name write_srt_dest
    rw [with_suffix_of_append _ hs h, endswith_append]
    simp
  · exact with_suffix_of_append _ hs h

/-- C6, witness: the naming theorem at the concrete video name `ep.mkv`. -/
theorem c6_subtitle_names_witness :
    ("ep".toList ≠ [] ∧ '.' ∉ "mkv".toList) ∧
    web_subtitle_name ("ep".toList ++ '.' :: "mkv".toList) =
      "ep".toList ++ ".eng.srt".toList ∧
    cli_subtitle_name ("ep".toList ++ '.' :: "mkv".toList) =
      "ep".toList ++ ".srt".toList :=
  ⟨⟨by decide, by decide⟩,
   c6_subtitle_names "ep".toList "mkv".toList (by decide) (by decide)⟩

/-! ## C9 — keyterm CSV round-trip -/

theorem filterMap_load_save (l : List String)
    (hclean : ∀ k ∈ l, pyStrip k = k ∧ k ≠ "" ∧ ¬ pyStartsWith k "#") :
    (save_keyterms_to_csv l).filterMap load_row = l := by
  induction l with
  | nil => rfl
  | cons k t ih =>
    obtain ⟨h1, h2, h3⟩ := hclean k (List.mem_cons_self k t)
    have ht := ih (fun x hx => hclean x (List.mem_cons_of_mem _ hx))
    simp only [save_keyterms_to_csv] at ht ⊢
    simp [List.filterMap_cons, save_row, load_row, h1, h2, h3, ht]

/-- C9, counterexample.  The keyterm `" a"` (with a leading space) does not
round-trip identically: `save_keyterms_to_csv` strips it before writing, so
loading returns `["a"]`, not `[" a"]` — and a space-padded keyterm is neither
a blank nor a `#`-comment line, the only exclusions the claim allows. -/
theorem c9_strip_breaks_roundtrip :
    load_keyterms_from_csv (save_keyterms_to_csv [" a"]) = some ["a"] ∧
    load_keyterms_from_csv (save_keyterms_to_csv [" a"]) ≠ some [" a"] := by
  decide

/-- C9, amended.  For every nonempty keyterm list whose entries are already
whitespace-stripped, nonempty and not `#`-comments, saving to the per-show
CSV and loading back returns the identical ordered list, non-ASCII keyterms
preserved exactly; entries are whitespace-stripped on save, and blank or
`#`-comment entries are excluded on the way back. -/
theorem c9_roundtrip (l : List String) (hne : l ≠ [])
    (hclean : ∀ k ∈ l, pyStrip k = k ∧ k ≠ "" ∧ ¬ pyStartsWith k "#") :
    load_keyterms_from_csv (save_keyterms_to_csv l) = some l := by
  unfold load_keyterms_from_csv
  rw [filterMap_load_save l hclean]
  simp [hne]

/-- C9, witness: the round-trip theorem on a concrete list with a non-ASCII
keyterm. -/
theorem c9_roundtrip_witness :
    (["Zoë", "Walter White"] ≠ ([] : List String) ∧
      ∀ k ∈ ["Zoë", "Walter White"],
        pyStrip k = k ∧ k ≠ "" ∧ ¬ pyStartsWith k "#") ∧
    load_keyterms_from_csv (save_keyterms_to_csv ["Zoë", "Walter White"]) =
      some ["Zoë", "Walter White"] :=
  ⟨⟨by decide, by decide⟩, c9_roundtrip _ (by decide) (by decide)⟩

/-! ## C8 — no-speech responses are file-level errors, batch continues -/

theorem process_video_total (conv : DGResponse → String) (cfg : CliConfig)
    (v : CliFileState) (s : CliStats) (ht : cfg.enable_transcript = false)
    (hf : cfg.force_regenerate = false) :
    stats_total (process_video conv cfg v s).stats = stats_total s + 1 := by
  obtain ⟨fr, et⟩ := cfg
  simp only at ht hf
  subst ht hf
  cases hsrt : v.srt_exists with
  | true =>
    simp [process_video, cli_skip, hsrt, stats_total]
    omega
  | false =>
    cases hex : v.extract_ok with
    | false =>
      simp [process_video, cli_skip, hsrt, process_video_try, hex, stats_total]
      omega
    | true =>
      cases hresp : v.response with
      | none =>
        simp [process_video, cli_skip, hsrt, process_video_try, hex, hresp,
          stats_total]
        omega
      | some r =>
        cases hgen : generate_srt conv r with
        | error e =>
          simp [process_video, cli_skip, hsrt, process_video_try, hex, hresp,
            hgen, stats_total]
          omega
        | ok txt =>
          simp [process_video, cli_skip, hsrt, process_video_try, hex, hresp,
            hgen, stats_total]
          omega

theorem run_batch_total (conv : DGResponse → String) (cfg : CliConfig)
    (ht : cfg.enable_transcript = false) (hf : cfg.force_regenerate = false)
    (vs : List CliFileState) :
    ∀ s : CliStats,
      stats_total (run_batch conv cfg vs s) = stats_total s + vs.length := by
  induction vs with
  | nil => intro s; simp [run_batch]
  | cons v t ih =>
    intro s
    have h1 := process_video_total conv cfg v s ht hf
    show stats_total
        (run_batch conv cfg t (process_video conv cfg v s).stats) = _
    rw [ih, h1]
    simp
    omega

/-- C8, confirmed.  A structurally valid response with an empty word list
makes `generate_srt` fail with the no-words error; `process_video` records a
file-level error for that file — failed count up by one, the file appended to
the failed list, False returned instead of an escaping exception — and the
batch loop still accounts one attempt for that file and one for every
sibling after it. -/
theorem c8_no_speech_is_file_error (conv : DGResponse → String)
    (cfg : CliConfig) (v : CliFileState) (s : CliStats) (r : DGResponse)
    (ch : DGChannel) (alt : DGAlternative) (chs : List DGChannel)
    (alts : List DGAlternative) (ht : cfg.enable_transcript = false)
    (hf : cfg.force_regenerate = false) (hx : v.extract_ok = true)
    (hsrt : v.srt_exists = false) (hresp : v.response = some r)
    (hch : r.channels = ch :: chs) (halt : ch.alternatives = alt :: alts)
    (hw : alt.words = []) :
    generate_srt conv r =
      Except.error "No words detected in audio - possibly silent video or no speech" ∧
    (process_video conv cfg v s).returned = false ∧
    (process_video conv cfg v s).stats.failed = s.failed + 1 ∧
    (process_video conv cfg v s).stats.failed_files = s.failed_files ++ [v.name] ∧
    ∀ rest : List CliFileState,
      stats_total (run_batch conv cfg (v :: rest) s) =
        stats_total s + (rest.length + 1) := by
  have hgen : generate_srt conv r =
      Except.error "No words detected in audio - possibly silent video or no speech" := by
    simp [generate_srt, hch, halt, hw]
  refine ⟨hgen, ?_, ?_, ?_, ?_⟩
  · simp [process_video, cli_skip, hf, ht, process_video_try, hx, hsrt, hresp, hgen]
  · simp [process_video, cli_skip, hf, ht, process_video_try, hx, hsrt, hresp, hgen]
  · simp [process_video, cli_skip, hf, ht, process_video_try, hx, hsrt, hresp, hgen]
  · intro rest
    rw [run_batch_total conv cfg ht hf (v :: rest) s]
    simp

/-- C8, witness: the no-speech theorem at a concrete two-file batch whose
first file gets an empty word list. -/
theorem c8_no_speech_witness :
    (no_speech_video.extract_ok = true ∧ no_speech_video.srt_exists = false ∧
      no_speech_video.response = some no_speech_response ∧
      no_speech_response.channels =
        [{ alternatives := [{ transcript := "", words := [] }] }]) ∧
    (process_video (fun _ => "") { force_regenerate := false, enable_transcript := false }
        no_speech_video zero_stats).stats.failed = zero_stats.failed + 1 ∧
    (process_video (fun _ => "") { force_regenerate := false, enable_transcript := false }
        no_speech_video zero_stats).stats.failed_files =
      zero_stats.failed_files ++ [no_speech_video.name] ∧
    stats_total (run_batch (fun _ => "")
        { force_regenerate := false, enable_transcript := false }
        (no_speech_video :: [no_speech_video]) zero_stats) =
      stats_total zero_stats + (1 + 1) := by
  have h := c8_no_speech_is_file_error (fun _ => "")
    { force_regenerate := false, enable_transcript := false }
    no_speech_video zero_stats no_speech_response
    { alternatives := [{ transcript := "", words := [] }] }
    { transcript := "", words := [] } [] []
    rfl rfl rfl rfl rfl rfl rfl rfl
  exact ⟨⟨rfl, rfl, rfl, rfl⟩, h.2.2.1, h.2.2.2.1, h.2.2.2.2 [no_speech_video]⟩

/-! ## C7 — speaker-turn grouping of the core transcript writer -/

theorem spec_turns_cons (w : DGWord) (ws : List DGWord) :
    spec_turns (w :: ws) = merge_run w.speaker [w.word] (spec_turns ws) := by
  rw [spec_turns]
  cases hts : spec_turns ws with
  | nil => rfl
  | cons p rest =>
    obtain ⟨s, txt⟩ := p
    by_cases hsp : w.speaker = s
    · simp [merge_run, hsp]
    · simp [merge_run, hsp]

theorem merge_run_absorb (s : Option Nat) (txt w : List String)
    (T : List (Option Nat × List String)) :
    merge_run s (txt ++ w) T = merge_run s txt (merge_run s w T) := by
  cases T with
  | nil => simp [merge_run]
  | cons p rest =>
    obtain ⟨s', t'⟩ := p
    by_cases h : s = s'
    · simp [merge_run, h, List.append_assoc]
    · simp [merge_run, h]

theorem merge_run_head (s : Option Nat) (txt : List String)
    (T : List (Option Nat × List String)) :
    ∃ t rest, merge_run s txt T = (s, t) :: rest := by
  cases T with
  | nil => exact ⟨txt, [], rfl⟩
  | cons p rest =>
    obtain ⟨s', t'⟩ := p
    by_cases h : s = s'
    · exact ⟨txt ++ t', rest, by simp [merge_run, h]⟩
    · exact ⟨txt, (s', t') :: rest, by simp [merge_run, h]⟩

theorem wt_loop_eq_merge (m : List (Nat × String)) (ws : List DGWord) :
    ∀ (cur : Option Nat) (txt : List String) (acc : List String),
      cur.isSome = true → txt ≠ [] →
      (∀ w ∈ ws, (w.speaker).isSome = true) →
      wt_loop m ws cur txt acc =
        acc ++ (merge_run cur txt (spec_turns ws)).map
          (fun t => format_turn m t.1 t.2) := by
  induction ws with
  | nil =>
    intro cur txt acc _ htxt _
    simp [wt_loop, merge_run, spec_turns, htxt]
  | cons w ws ih =>
    intro cur txt acc hcur htxt hlab
    have hws : ∀ x ∈ ws, (x.speaker).isSome = true :=
      fun x hx => hlab x (List.mem_cons_of_mem _ hx)
    rw [wt_loop]
    by_cases hsp : w.speaker = cur
    · rw [if_pos hsp]
      rw [ih cur (txt ++ [w.word]) acc hcur (by simp) hws]
      rw [spec_turns_cons, hsp, ← merge_run_absorb]
    · rw [if_neg hsp]
      have hw : (w.speaker).isSome = true := hlab w (List.mem_cons_self w ws)
      have hflush : (cur.isSome && !txt.isEmpty) = true := by
        simp [hcur, htxt]
      rw [hflush]
      simp only [if_pos]
      rw [ih w.speaker [w.word] _ hw (by simp) hws]
      rw [spec_turns_cons]
      obtain ⟨t, rest, hr⟩ := merge_run_head w.speaker [w.word] (spec_turns ws)
      rw [hr]
      have hcw : ¬ cur = w.speaker := fun e => hsp e.symm
      simp [merge_run, hcw, List.append_assoc]

/-- C7, counterexample.  A response whose single word carries no speaker
label: the core writer `write_transcript` labels the turn `Speaker None` —
the unlabeled speaker stays Python `None` and is never defaulted to id 0 as
the claim states, which would give `Speaker 0`. -/
theorem c7_unlabeled_word_not_speaker_zero :
    write_transcript []
        { transcript := "hello", words := [{ word := "hello", speaker := none }] } =
      "Speaker None: hello" ∧
    write_transcript []
        { transcript := "hello", words := [{ word := "hello", speaker := none }] } ≠
      "Speaker 0: hello" := by
  constructor
  · rfl
  · decide

/-- C7, amended.  For every response whose words all carry speaker labels,
the core writer groups consecutive words into turns — a new turn exactly when
the speaker identifier changes — prefixes each turn with the mapped name (or
`Speaker <id>` when unmapped), and separates turns by double newlines; a
response with no words at all gets its raw transcript text written as the
single fallback turn.  (An unlabeled word instead keeps identifier `None`,
rendered `Speaker None`, and a `None` turn that is not last is dropped by the
flush guard; the CLI generator, not covered here, defaults such words to id 0
and writes single-newline, timestamped turns with no fallback.) -/
theorem c7_write_transcript_groups_turns (m : List (Nat × String))
    (alt : DGAlternative)
    (hlab : ∀ w ∈ alt.words, (w.speaker).isSome = true) :
    write_transcript m alt =
      if alt.words.isEmpty then alt.transcript
      else
        String.intercalate "\n\n"
          ((spec_turns alt.words).map (fun t => format_turn m t.1 t.2)) := by
  cases hws : alt.words with
  | nil => simp [write_transcript, hws]
  | cons w ws =>
    rw [hws] at hlab
    have hw : (w.speaker).isSome = true := hlab w (List.mem_cons_self w ws)
    have hne : ¬ w.speaker = none := by
      cases h : w.speaker
      · rw [h] at hw; simp at hw
      · simp
    rw [write_transcript, hws]
    simp only [List.isEmpty_cons, if_false, Bool.false_eq_true]
    congr 1
    rw [wt_loop]
    rw [if_neg hne]
    simp only [Option.isSome_none, Bool.false_and, Bool.false_eq_true, if_false]
    rw [wt_loop_eq_merge m ws w.speaker [w.word] [] hw (by simp)
      (fun x hx => hlab x (List.mem_cons_of_mem _ hx))]
    rw [spec_turns_cons]
    simp

/-- C7, witness: the grouping theorem at a concrete fully labeled response
with a speaker map for id 0. -/
theorem c7_write_transcript_witness :
    (∀ w ∈ labeled_alt.words, (w.speaker).isSome = true) ∧
    write_transcript [(0, "Walter")] labeled_alt =
      "Walter: hello there\n\nSpeaker 1: hi" :=
  ⟨by decide,
   (c7_write_transcript_groups_turns [(0, "Walter")] labeled_alt (by decide)).trans
     (by decide)⟩

end DeepgramSubtitles
